import Mathlib

/-!
Shallow embedding of the async HTTP server (src/src/main.rs) and proofs about
its per-connection request lifecycle.

Modelling conventions:
- Raw socket I/O and the tokio runtime are outside the embedding.  A connection
  is modelled by the number of bytes the single socket read returned, the
  outcome of the external httparse parser on those bytes, and an abstract
  read-only filesystem.  All socket writes are assumed to succeed (an I/O error
  would abort the handler via the error propagation operator in the source).
- Rust byte strings are modelled as Lean `String`s; `str::len` is the UTF-8
  byte size.  File contents are abstract byte lists (`List Nat`).
- Rust `Path` values are modelled by their normalized components (as produced
  by `Path::components`: empty and `.` segments dropped, `..` kept) together
  with an absoluteness flag; Rust `Path` equality is component equality.
- Filesystem operations performed by the handler (`is_dir`, `File::open` plus
  `read_to_end`, `read_dir`) are recorded in an access trace so that claims
  about "no filesystem access" are expressible.
-/

namespace AsyncServer

/-- Splits a character list at every occurrence of `sep`; models the segment
structure Rust uses for paths and extensions.  `splitChar sep []` is `[[]]`,
matching the behaviour of splitting an empty string. -/
def splitChar (sep : Char) : List Char → List (List Char)
  | [] => [[]]
  | c :: rest =>
    let acc := splitChar sep rest
    if c = sep then [] :: acc
    else match acc with
      | [] => [[c]]
      | h :: t => (c :: h) :: t

/-- `startsWithChars pat l` decides whether `pat` is an initial segment of `l`;
a kernel-reducible replacement for `String.startsWith` on character data. -/
def startsWithChars : List Char → List Char → Bool
  | [], _ => true
  | _ :: _, [] => false
  | a :: p, b :: l => a == b && startsWithChars p l

/-- `hasSubChars pat l` decides whether `pat` occurs contiguously inside `l`;
models Rust `str::contains` for ASCII patterns. -/
def hasSubChars (pat : List Char) : List Char → Bool
  | [] => startsWithChars pat []
  | c :: rest => startsWithChars pat (c :: rest) || hasSubChars pat rest

/-- Models Rust `str::contains` (substring containment). -/
def containsSub (s pat : String) : Bool := hasSubChars pat.data s.data

/-- Models Rust `str::starts_with`. -/
def rustStartsWith (s pat : String) : Bool := startsWithChars pat.data s.data

/-- Drops the first `n` characters of a string (our request paths are ASCII, so
characters coincide with bytes). -/
def dropChars (s : String) (n : Nat) : String := String.mk (s.data.drop n)

/-- One stripping round of Rust `str::trim_start_matches`, with explicit fuel
for termination; each successful strip removes at least one character, so a
fuel of `s.length` is enough. -/
def trimAux (pat : String) : Nat → String → String
  | 0, s => s
  | Nat.succ fuel, s =>
    if rustStartsWith s pat then trimAux pat fuel (dropChars s pat.length)
    else s

/-- Models Rust `str::trim_start_matches`: repeatedly removes `pat` from the
front of `s` while it is a prefix. -/
def trimStartMatches (s pat : String) : String := trimAux pat s.length s

/-- A Rust `Path`, reduced to what `Path::components` observes: an absoluteness
flag plus the normalized component list (empty and `.` segments dropped, `..`
segments kept).  Rust `Path` equality is equality of this data. -/
structure RustPath where
  absolute : Bool
  comps : List String
deriving DecidableEq

/-- Normalized components of a path-shaped string: split on `/`, drop empty
and `.` segments (as `Path::components` does), keep `..`. -/
def pathComponents (s : String) : List String :=
  ((splitChar '/' s.data).map (fun cs => String.mk cs)).filter
    (fun c => !(c == "") && !(c == "."))

/-- Models `Path::new(base).join(seg)`: an absolute `seg` replaces the base
path entirely, otherwise the components of `seg` are appended. -/
def rustJoin (base : RustPath) (seg : String) : RustPath :=
  if rustStartsWith seg "/" then { absolute := true, comps := pathComponents seg }
  else { absolute := base.absolute, comps := base.comps ++ pathComponents seg }

/-- The serving root `Path::new("public")`. -/
def publicRoot : RustPath := { absolute := false, comps := ["public"] }

/-- Models `Path::extension` applied to the final component `name`:
the part after the last `.`, none when there is no `.` or when the name is
hidden-file-shaped (begins with `.` and has no further `.`). -/
def rustExtension (name : String) : Option String :=
  let parts := (splitChar '.' name.data).map (fun cs => String.mk cs)
  if rustStartsWith name "." then
    if parts.length ≥ 3 then some (parts.getLastD "") else none
  else
    if parts.length ≥ 2 then some (parts.getLastD "") else none

/-- The fixed extension → content-type table of `serve_file`. -/
def contentTypeFor : Option String → String
  | some e =>
    if e = "html" then "text/html"
    else if e = "css" then "text/css"
    else if e = "js" then "application/javascript"
    else if e = "jpg" then "image/jpeg"
    else if e = "jpeg" then "image/jpeg"
    else if e = "png" then "image/png"
    else if e = "gif" then "image/gif"
    else "application/octet-stream"
  | none => "application/octet-stream"

/-- A response body: either a Rust string written with `as_bytes`, or raw
file bytes. -/
inductive Body where
  | text : String → Body
  | binary : List Nat → Body
deriving DecidableEq

/-- The byte length of a body as it goes on the wire (`str::len` is the UTF-8
byte size). -/
def Body.byteLength : Body → Nat
  | .text s => s.utf8ByteSize
  | .binary bs => bs.length

/-- One HTTP response as assembled by the server: status line, headers in
written order, body. -/
structure Response where
  statusLine : String
  headers : List (String × String)
  body : Body
deriving DecidableEq

/-- Looks up the first header with the given name. -/
def lookupHeader (r : Response) (key : String) : Option String :=
  (r.headers.find? (fun h => h.1 == key)).map (fun h => h.2)

/-- Models `serve_static_html`: the response whose wire form is
`{status}\r\nContent-Length: {content.len()}\r\nContent-Type: text/html\r\nConnection: close\r\n\r\n{content}`. -/
def serve_static_html (content : String) (status : String) : Response :=
  { statusLine := status
  , headers := [("Content-Length", toString content.utf8ByteSize),
                ("Content-Type", "text/html"),
                ("Connection", "close")]
  , body := Body.text content }

/-- The 200 response `serve_file` sends for a regular file at path `p` whose
read-in contents are `contents`. -/
def fileOkResponse (p : RustPath) (contents : List Nat) : Response :=
  { statusLine := "HTTP/1.1 200 OK"
  , headers := [("Content-Length", toString contents.length),
                ("Content-Type", contentTypeFor (rustExtension (p.comps.getLastD ""))),
                ("Connection", "close")]
  , body := Body.binary contents }

/-- The raw 405 response string `"HTTP/1.1 405 Method Not Allowed\r\n\r\n"`,
decomposed: no headers, empty body. -/
def response405 : Response :=
  { statusLine := "HTTP/1.1 405 Method Not Allowed", headers := [], body := Body.text "" }

/-- The raw 400 response string
`"HTTP/1.1 400 Bad Request\r\nContent-Length: 26\r\n\r\nIncomplete request received"`,
decomposed. -/
def response400Incomplete : Response :=
  { statusLine := "HTTP/1.1 400 Bad Request"
  , headers := [("Content-Length", "26")]
  , body := Body.text "Incomplete request received" }

/-- The raw 400 response string
`"HTTP/1.1 400 Bad Request\r\nContent-Length: 24\r\n\r\nMalformed HTTP request"`,
decomposed. -/
def response400Malformed : Response :=
  { statusLine := "HTTP/1.1 400 Bad Request"
  , headers := [("Content-Length", "24")]
  , body := Body.text "Malformed HTTP request" }

/-- Re-serializes a text response to its wire form (status line, headers in
order, blank line, body); links the structured responses back to the raw
strings in the source. -/
def renderResponse (r : Response) : String :=
  r.statusLine ++ "\r\n"
    ++ String.join (r.headers.map (fun h => h.1 ++ ": " ++ h.2 ++ "\r\n"))
    ++ "\r\n"
    ++ (match r.body with | Body.text s => s | Body.binary _ => "")

/-- One `read_dir` entry: its file name and, when `entry.file_type()`
succeeded, whether it is a directory.  A `none` file type (or an `Err` entry,
which the source skips the same way) renders nothing. -/
structure DirEntry where
  name : String
  fileType : Option Bool
deriving DecidableEq

/-- The abstract read-only filesystem a connection task sees: `is_dir` status,
`File::open` + `read_to_end` result, and `read_dir` result (with `none` for a
directory-level read failure) per path. -/
structure FileSystem where
  isDir : RustPath → Bool
  fileData : RustPath → Option (List Nat)
  dirEntries : RustPath → Option (List DirEntry)

/-- A single filesystem access performed by the handler. -/
inductive FsAccess where
  | isDirCheck : RustPath → FsAccess
  | openFile : RustPath → FsAccess
  | readDir : RustPath → FsAccess
deriving DecidableEq

/-- Outcome of `httparse::Request::parse` on the bytes of the single read:
a complete request with its method and path, a structurally valid but
incomplete one, or a malformed one.  (httparse is an external crate; only its
three outcomes matter to the handler.) -/
inductive ParseResult where
  | complete : String → String → ParseResult
  | incompleteReq : ParseResult
  | malformedReq : ParseResult
deriving DecidableEq

/-- The `<li>` fragment of the parent-directory link pushed by
`serve_directory_listing` for non-root directories. -/
def parentLinkItem : String := "<li><a href=\"../\">..</a> (Parent Directory)</li>"

/-- The `<li>` fragment pushed for one directory entry: directories with a
trailing slash, files bare, entries with a failed stat skipped. -/
def entryItem (e : DirEntry) : Option String :=
  match e.fileType with
  | none => none
  | some true => some ("<li><a href=\"" ++ e.name ++ "/\">" ++ e.name ++ "/</a></li>")
  | some false => some ("<li><a href=\"" ++ e.name ++ "\">" ++ e.name ++ "</a></li>")

/-- The display path of a listing: `"/files/"` for the serving root, otherwise
`"/files/" ++ dir-relative-to-public ++ "/"` (with `strip_prefix` falling back
to the empty path on failure). -/
def relPathOf (dir : RustPath) : String :=
  if dir = publicRoot then "/files/"
  else
    "/files/"
      ++ String.intercalate "/"
          (if !dir.absolute && dir.comps.headD "" == "public" then dir.comps.tail else [])
      ++ "/"

/-- The sequence of `<li>` fragments pushed into the listing page: the parent
link when the display path is not `"/files/"`, then one fragment per entry
whose stat succeeded. -/
def listingItems (dir : RustPath) (entries : List DirEntry) : List String :=
  (if relPathOf dir ≠ "/files/" then [parentLinkItem] else [])
    ++ entries.filterMap entryItem

/-- The full directory-listing HTML exactly as `serve_directory_listing`
accumulates it by `push_str`. -/
def listingHtml (dir : RustPath) (entries : List DirEntry) : String :=
  "<html><body><h1>Directory: " ++ relPathOf dir ++ "</h1><ul>"
    ++ String.join (listingItems dir entries)
    ++ "</ul></body></html>"

/-- The 500 page of `serve_directory_listing`. -/
def dirErrorHtml : String :=
  "<html><body><h1>500 Internal Server Error</h1><p>Could not read directory.</p></body></html>"

/-- Models `serve_directory_listing`: records the `read_dir` access and
produces either the 500 page or the 200 listing. -/
def serve_directory_listing (fs : FileSystem) (dir : RustPath) :
    List FsAccess × List Response :=
  ([FsAccess.readDir dir],
   match fs.dirEntries dir with
   | none => [serve_static_html dirErrorHtml "HTTP/1.1 500 Internal Server Error"]
   | some entries => [serve_static_html (listingHtml dir entries) "HTTP/1.1 200 OK"])

/-- The 403 page of `serve_file`. -/
def forbiddenHtml : String :=
  "<html><body><h1>403 Forbidden</h1><p>Access denied.</p></body></html>"

/-- The 404 page `serve_file` sends when `File::open` fails. -/
def fileNotFoundHtml : String :=
  "<html><body><h1>404 Not Found</h1><p>The requested file could not be found.</p></body></html>"

/-- The body of `serve_file` after `trim_start_matches` has produced the
segment `filePath`.  Mirrors the source faithfully, including the missing
early return after the 403 page: when the segment contains `..` the 403
response is written and execution nevertheless continues into the `is_dir`
check and the file/directory serving code. -/
def serveSegment (fs : FileSystem) (filePath : String) : List FsAccess × List Response :=
  let pre : List Response :=
    if containsSub filePath ".." = true then
      [serve_static_html forbiddenHtml "HTTP/1.1 403 Forbidden"]
    else []
  let joined := rustJoin publicRoot filePath
  if fs.isDir joined = true then
    let dl := serve_directory_listing fs joined
    (FsAccess.isDirCheck joined :: dl.1, pre ++ dl.2)
  else
    match fs.fileData joined with
    | some contents =>
        ([FsAccess.isDirCheck joined, FsAccess.openFile joined],
         pre ++ [fileOkResponse joined contents])
    | none =>
        ([FsAccess.isDirCheck joined, FsAccess.openFile joined],
         pre ++ [serve_static_html fileNotFoundHtml "HTTP/1.1 404 NOT FOUND"])

/-- Models `serve_file`: strips every leading repetition of `"/files/"` from
the request path (Rust `trim_start_matches`) and serves the remaining
segment. -/
def serve_file (fs : FileSystem) (path : String) : List FsAccess × List Response :=
  serveSegment fs (trimStartMatches path "/files/")

/-- The home page HTML served for `/` (verbatim from the source; `\x27` is the
single-quote character). -/
def homeHtml : String :=
  "<html><body>\n                    <h1>Welcome to Tokio Async Server</h1>\n                    <p>This is a simple async HTTP server built with Tokio.</p>\n                    <ul>\n                        <li><a href=\x27/\x27>Home</a></li>\n                        <li><a href=\x27/about\x27>About</a></li>\n                        <li><a href=\x27/files/index.html\x27>Static File Example</a></li>\n                        <li><a href=\x27/files/\x27>Files Directory</a></li>\n                    </ul>\n                </body></html>"

/-- The about page HTML served for `/about` (verbatim from the source). -/
def aboutHtml : String :=
  "<html><body>\n                    <h1>About This Server</h1>\n                    <p>This is a demonstration of asynchronous programming in Rust using Tokio.</p>\n                    <p><a href=\x27/\x27>Back to home</a></p>\n                </body></html>"

/-- The 404 page HTML served for unrouted paths (verbatim from the source). -/
def notFoundHtml : String :=
  "<html><body>\n                    <h1>404: Page not found</h1>\n                    <p>The requested resource could not be found.</p>\n                    <p><a href=\x27/\x27>Back to home</a></p>\n                </body></html>"

/-- Models `handle_get_request`: the router over the request path. -/
def handle_get_request (fs : FileSystem) (path : String) :
    List FsAccess × List Response :=
  if path = "/" then ([], [serve_static_html homeHtml "HTTP/1.1 200 OK"])
  else if path = "/about" then ([], [serve_static_html aboutHtml "HTTP/1.1 200 OK"])
  else if rustStartsWith path "/files/" = true then serve_file fs path
  else ([], [serve_static_html notFoundHtml "HTTP/1.1 404 NOT FOUND"])

/-- Models `handle_connection` for one accepted connection: `n` is the number
of bytes the single socket read returned, `pr` the httparse outcome on those
bytes, `fs` the filesystem.  Returns the filesystem accesses performed and the
responses written, in order. -/
def handle_connection (n : Nat) (pr : ParseResult) (fs : FileSystem) :
    List FsAccess × List Response :=
  if n = 0 then ([], [])
  else
    match pr with
    | ParseResult.complete method path =>
        if method = "GET" then handle_get_request fs path
        else ([], [response405])
    | ParseResult.incompleteReq => ([], [response400Incomplete])
    | ParseResult.malformedReq => ([], [response400Malformed])

/-- A filesystem with no directories, no files, no listings. -/
def emptyFs : FileSystem :=
  { isDir := fun _ => false, fileData := fun _ => none, dirEntries := fun _ => none }

/-! ### Helper lemmas -/

/-- Two strings differ whenever their trailing chunks differ: if `c` is not
the length-`|c|` suffix of `t`, then `x ++ c ≠ t`. -/
lemma append_ne_of_suffix (x c t : String)
    (h : c.data.reverse ≠ t.data.reverse.take c.data.reverse.length) :
    x ++ c ≠ t := by
  intro he
  apply h
  have hd : x.data ++ c.data = t.data := by
    rw [← String.data_append]
    exact congrArg String.data he
  have hr : t.data.reverse = c.data.reverse ++ x.data.reverse := by
    rw [← hd, List.reverse_append]
  rw [hr, List.take_left]

/-- No directory entry, whatever its name, renders to the parent-directory
link fragment: the fragments end in different tag sequences. -/
lemma entryItem_ne_parentLink (e : DirEntry) : entryItem e ≠ some parentLinkItem := by
  rcases e with ⟨nm, ft⟩
  cases ft with
  | none => simp [entryItem]
  | some b =>
    cases b with
    | true =>
      simp only [entryItem]
      intro h
      rw [Option.some_inj] at h
      exact append_ne_of_suffix _ "/</a></li>" _ (by decide) h
    | false =>
      simp only [entryItem]
      intro h
      rw [Option.some_inj] at h
      exact append_ne_of_suffix _ "</a></li>" _ (by decide) h

/-- The display path of a listing is exactly `"/files/"` precisely for the
serving root (any other directory appends at least a trailing slash). -/
lemma relPathOf_eq_iff (dir : RustPath) : relPathOf dir = "/files/" ↔ dir = publicRoot := by
  constructor
  · intro h
    by_contra hne
    rw [relPathOf, if_neg hne] at h
    have hlen := congrArg String.length h
    rw [String.length_append, String.length_append] at hlen
    have h7 : ("/files/" : String).length = 7 := rfl
    have h1 : ("/" : String).length = 1 := rfl
    rw [h7, h1] at hlen
    omega
  · intro h
    rw [relPathOf, if_pos h]

/-- The parent-directory link appears among the pushed listing fragments
exactly when the listed directory is not the serving root. -/
lemma parentLink_mem_listingItems_iff (dir : RustPath) (entries : List DirEntry) :
    parentLinkItem ∈ listingItems dir entries ↔ dir ≠ publicRoot := by
  unfold listingItems
  by_cases hroot : dir = publicRoot
  · have heq : relPathOf dir = "/files/" := (relPathOf_eq_iff dir).mpr hroot
    simp only [heq, ne_eq, not_true_eq_false, if_false, List.nil_append]
    constructor
    · intro hmem
      rcases List.mem_filterMap.mp hmem with ⟨e, _, he⟩
      exact absurd he (entryItem_ne_parentLink e)
    · intro hne
      exact absurd hroot hne
  · have hne : relPathOf dir ≠ "/files/" := fun h => hroot ((relPathOf_eq_iff dir).mp h)
    simp only [hne, ne_eq, not_false_eq_true, if_true, List.cons_append, List.nil_append]
    constructor
    · intro _
      exact hroot
    · intro _
      exact List.mem_cons_self _ _

/-! ### Fidelity checks tying the structured responses to the raw strings in
the source -/

/-- The decomposed 405 response re-serializes to the raw string written in
`handle_connection`. -/
lemma render_response405 :
    renderResponse response405 = "HTTP/1.1 405 Method Not Allowed\r\n\r\n" := by decide

/-- The decomposed incomplete-request 400 response re-serializes to the raw
string written in `handle_connection`. -/
lemma render_response400Incomplete :
    renderResponse response400Incomplete =
      "HTTP/1.1 400 Bad Request\r\nContent-Length: 26\r\n\r\nIncomplete request received" := by
  decide

/-- The decomposed malformed-request 400 response re-serializes to the raw
string written in `handle_connection`. -/
lemma render_response400Malformed :
    renderResponse response400Malformed =
      "HTTP/1.1 400 Bad Request\r\nContent-Length: 24\r\n\r\nMalformed HTTP request" := by
  decide

/-! ### Concrete filesystems used as witnesses and counterexamples -/

/-- The path `public/../etc/passwd` (components as Rust sees them). -/
def traversalTarget : RustPath := { absolute := false, comps := ["public", "..", "etc", "passwd"] }

/-- Placeholder secret file contents. -/
def secretBytes : List Nat := [114, 111, 111, 116]

/-- A filesystem in which `public/../etc/passwd` is an openable regular
file. -/
def fsTraversal : FileSystem :=
  { isDir := fun _ => false
  , fileData := fun p => if p = traversalTarget then some secretBytes else none
  , dirEntries := fun _ => none }

/-- The path `public/a`. -/
def aTarget : RustPath := { absolute := false, comps := ["public", "a"] }

/-- A filesystem containing only the regular file `public/a`. -/
def fsStripOnce : FileSystem :=
  { isDir := fun _ => false
  , fileData := fun p => if p = aTarget then some [7] else none
  , dirEntries := fun _ => none }

/-- The path `public/pic.png`. -/
def picTarget : RustPath := { absolute := false, comps := ["public", "pic.png"] }

/-- A filesystem containing only the regular file `public/pic.png` with
contents `[1, 2, 3]`. -/
def fsPic : FileSystem :=
  { isDir := fun _ => false
  , fileData := fun p => if p = picTarget then some [1, 2, 3] else none
  , dirEntries := fun _ => none }

/-- A filesystem whose serving root exists, is a directory, and lists a single
regular file `index.html`. -/
def fsRootListing : FileSystem :=
  { isDir := fun p => decide (p = publicRoot)
  , fileData := fun _ => none
  , dirEntries := fun p =>
      if p = publicRoot then some [{ name := "index.html", fileType := some false }] else none }

/-! ### Claims -/

/-- C1: the spec claims that a file-request segment containing `..` yields a
403 and no filesystem access.  The code does write the 403 page, but the
missing early return lets execution continue: it checks `is_dir`, opens
`public/../etc/passwd`, and writes a second response carrying the file bytes.
This theorem exhibits the access trace and the two responses. -/
theorem claim_C1_traversal_guard_code_bug :
    handle_get_request fsTraversal "/files/../etc/passwd" =
      ([FsAccess.isDirCheck traversalTarget, FsAccess.openFile traversalTarget],
       [serve_static_html forbiddenHtml "HTTP/1.1 403 Forbidden",
        fileOkResponse traversalTarget secretBytes]) := by decide

/-- C2: the spec claims exactly one response per accepted connection on which
a response is attempted.  On a `..`-containing file request the handler writes
two responses (the 403 page and then the file/directory response), because the
403 branch of `serve_file` does not return. -/
theorem claim_C2_two_responses_code_bug :
    ((handle_connection 42 (ParseResult.complete "GET" "/files/../etc/passwd")
        fsTraversal).2).length = 2 := by decide

/-- C3: the spec claims every Content-Length equals the exact byte length of
the body written, including the fixed 400 bodies.  The hardcoded 400 responses
disagree: `Content-Length: 26` with the 27-byte body
`Incomplete request received`, and `Content-Length: 24` with the 22-byte body
`Malformed HTTP request`. -/
theorem claim_C3_content_length_code_bug :
    handle_connection 5 ParseResult.incompleteReq emptyFs = ([], [response400Incomplete]) ∧
    lookupHeader response400Incomplete "Content-Length" = some "26" ∧
    (response400Incomplete.body).byteLength = 27 ∧
    handle_connection 5 ParseResult.malformedReq emptyFs = ([], [response400Malformed]) ∧
    lookupHeader response400Malformed "Content-Length" = some "24" ∧
    (response400Malformed.body).byteLength = 22 := by decide

/-- Follows the spec words for the `/files/` route, "FileRequest(path with
prefix stripped)": the `/files/` prefix is removed once and file serving runs
on the remainder.  Kept for comparison with the implementation, which removes
every leading repetition of `/files/`. -/
def serveFilesStrippedOnce (fs : FileSystem) (path : String) :
    List FsAccess × List Response :=
  serveSegment fs (dropChars path "/files/".length)

/-- C4 counterexample: on the path `/files//files/a` the implementation trims
`/files/` twice and serves the segment `a` (the file `public/a`), while the
claimed strip-once dispatch would serve the segment `/files/a` (a 404 here).
So "handed to file serving with the prefix stripped" is false as stated. -/
theorem claim_C4_counterexample :
    rustStartsWith "/files//files/a" "/files/" = true ∧
    handle_get_request fsStripOnce "/files//files/a" ≠
      serveFilesStrippedOnce fsStripOnce "/files//files/a" := by decide

/-- C4 (amended): router dispatch sends `/` to the 200 home page, `/about` to
the 200 about page, any other path with prefix `/files/` to file serving with
every leading repetition of `/files/` removed (Rust `trim_start_matches`), and
any other path to the 404 page. -/
theorem claim_C4_router_dispatch (fs : FileSystem) (path : String) :
    handle_get_request fs "/" = ([], [serve_static_html homeHtml "HTTP/1.1 200 OK"]) ∧
    handle_get_request fs "/about" = ([], [serve_static_html aboutHtml "HTTP/1.1 200 OK"]) ∧
    (rustStartsWith path "/files/" = true →
      handle_get_request fs path = serveSegment fs (trimStartMatches path "/files/")) ∧
    (path ≠ "/" → path ≠ "/about" → rustStartsWith path "/files/" = false →
      handle_get_request fs path =
        ([], [serve_static_html notFoundHtml "HTTP/1.1 404 NOT FOUND"])) := by
  refine ⟨rfl, rfl, ?_, ?_⟩
  · intro hst
    have h1 : path ≠ "/" := by rintro rfl; exact absurd hst (by decide)
    have h2 : path ≠ "/about" := by rintro rfl; exact absurd hst (by decide)
    simp [handle_get_request, h1, h2, hst, serve_file]
  · intro h1 h2 h3
    simp [handle_get_request, h1, h2, h3]

/-- C4 witness: the amended dispatch evaluated on `/files/x` and on an
unrouted path. -/
theorem claim_C4_router_dispatch_witness :
    handle_get_request emptyFs "/files/x" =
      serveSegment emptyFs (trimStartMatches "/files/x" "/files/") ∧
    handle_get_request emptyFs "/nope" =
      ([], [serve_static_html notFoundHtml "HTTP/1.1 404 NOT FOUND"]) :=
  ⟨(claim_C4_router_dispatch emptyFs "/files/x").2.2.1 (by decide),
   (claim_C4_router_dispatch emptyFs "/nope").2.2.2 (by decide) (by decide) (by decide)⟩

/-- C5: any successfully parsed request whose method is not exactly `GET` gets
the 405 response, for every path and every filesystem (the router is never
consulted: the result does not depend on `path` or `fs`, and no filesystem
access is recorded). -/
theorem claim_C5_non_get_405 (n : Nat) (method path : String) (fs : FileSystem)
    (hn : n ≠ 0) (hm : method ≠ "GET") :
    handle_connection n (ParseResult.complete method path) fs = ([], [response405]) := by
  unfold handle_connection
  rw [if_neg hn]
  simp [hm]

/-- C5 witness: `POST /` on one read byte gets the 405 response. -/
theorem claim_C5_non_get_405_witness :
    handle_connection 1 (ParseResult.complete "POST" "/") emptyFs = ([], [response405]) :=
  claim_C5_non_get_405 1 "POST" "/" emptyFs (by decide) (by decide)

/-- C7: a connection whose single socket read returns zero bytes is closed
with no response written and no filesystem access. -/
theorem claim_C7_zero_read_no_response (pr : ParseResult) (fs : FileSystem) :
    handle_connection 0 pr fs = ([], []) := rfl

/-- C6: for a `/files/` request whose segment is free of `..` and resolves to
an openable regular file (not a directory), the single response carries the
file bytes verbatim as body, a Content-Type drawn from the fixed extension
table applied to the final path component, and the table is exactly the one in
the source (unknown and missing extensions fall to
`application/octet-stream`). -/
theorem claim_C6_file_round_trip (fs : FileSystem) (path : String) (contents : List Nat)
    (hdot : containsSub (trimStartMatches path "/files/") ".." = false)
    (hdir : fs.isDir (rustJoin publicRoot (trimStartMatches path "/files/")) = false)
    (hfile : fs.fileData (rustJoin publicRoot (trimStartMatches path "/files/")) = some contents) :
    (serve_file fs path).2 =
      [fileOkResponse (rustJoin publicRoot (trimStartMatches path "/files/")) contents] ∧
    (fileOkResponse (rustJoin publicRoot (trimStartMatches path "/files/")) contents).body =
      Body.binary contents ∧
    lookupHeader
        (fileOkResponse (rustJoin publicRoot (trimStartMatches path "/files/")) contents)
        "Content-Type" =
      some (contentTypeFor (rustExtension
        (((rustJoin publicRoot (trimStartMatches path "/files/")).comps).getLastD ""))) ∧
    contentTypeFor (some "html") = "text/html" ∧
    contentTypeFor (some "css") = "text/css" ∧
    contentTypeFor (some "js") = "application/javascript" ∧
    contentTypeFor (some "jpg") = "image/jpeg" ∧
    contentTypeFor (some "jpeg") = "image/jpeg" ∧
    contentTypeFor (some "png") = "image/png" ∧
    contentTypeFor (some "gif") = "image/gif" ∧
    (∀ e : String, e ≠ "html" → e ≠ "css" → e ≠ "js" → e ≠ "jpg" → e ≠ "jpeg" →
      e ≠ "png" → e ≠ "gif" → contentTypeFor (some e) = "application/octet-stream") ∧
    contentTypeFor none = "application/octet-stream" := by
  refine ⟨?_, rfl, rfl, rfl, rfl, rfl, rfl, rfl, rfl, rfl, ?_, rfl⟩
  · simp [serve_file, serveSegment, hdot, hdir, hfile]
  · intro e h1 h2 h3 h4 h5 h6 h7
    simp [contentTypeFor, h1, h2, h3, h4, h5, h6, h7]

/-- C6 witness: serving `public/pic.png` (contents `[1, 2, 3]`) out of a
concrete filesystem. -/
theorem claim_C6_file_round_trip_witness :
    (serve_file fsPic "/files/pic.png").2 =
      [fileOkResponse (rustJoin publicRoot (trimStartMatches "/files/pic.png" "/files/"))
        [1, 2, 3]] :=
  (claim_C6_file_round_trip fsPic "/files/pic.png" [1, 2, 3]
    (by decide) (by decide) (by decide)).1

/-- C8: a successful directory listing is the 200 page assembled from the
pushed fragments, and the parent-directory link fragment occurs among them
exactly when the listed directory is not the serving root. -/
theorem claim_C8_parent_link_iff (fs : FileSystem) (dir : RustPath)
    (entries : List DirEntry) (h : fs.dirEntries dir = some entries) :
    (serve_directory_listing fs dir).2 =
      [serve_static_html (listingHtml dir entries) "HTTP/1.1 200 OK"] ∧
    (parentLinkItem ∈ listingItems dir entries ↔ dir ≠ publicRoot) :=
  ⟨by simp [serve_directory_listing, h], parentLink_mem_listingItems_iff dir entries⟩

/-- C8 witness: listing the serving root itself (one `index.html` entry)
produces the 200 page, and the parent-link membership reduces to the root
being distinct from itself. -/
theorem claim_C8_parent_link_iff_witness :
    (serve_directory_listing fsRootListing publicRoot).2 =
      [serve_static_html
        (listingHtml publicRoot [{ name := "index.html", fileType := some false }])
        "HTTP/1.1 200 OK"] ∧
    (parentLinkItem ∈ listingItems publicRoot [{ name := "index.html", fileType := some false }]
      ↔ publicRoot ≠ publicRoot) :=
  claim_C8_parent_link_iff fsRootListing publicRoot
    [{ name := "index.html", fileType := some false }] (by decide)

/-- C9 counterexample: the 405 response written for `POST /` carries no
headers at all — neither Content-Length nor `Connection: close` — refuting the
claim that every response carries both. -/
theorem claim_C9_counterexample :
    handle_connection 5 (ParseResult.complete "POST" "/") emptyFs = ([], [response405]) ∧
    lookupHeader response405 "Content-Length" = none ∧
    lookupHeader response405 "Connection" = none := by decide

/-- C9 (amended): every response built by `serve_static_html` (builtin pages,
403/404/500 pages, directory listings) and every 200 file response carry a
Content-Length equal to the body byte length and a `Connection: close` header;
the 405 response carries no headers, and the two 400 responses carry only a
hardcoded Content-Length and no `Connection: close`. -/
theorem claim_C9_headers (content status : String) (p : RustPath) (bs : List Nat) :
    lookupHeader (serve_static_html content status) "Content-Length" =
      some (toString ((serve_static_html content status).body.byteLength)) ∧
    lookupHeader (serve_static_html content status) "Connection" = some "close" ∧
    lookupHeader (fileOkResponse p bs) "Content-Length" =
      some (toString ((fileOkResponse p bs).body.byteLength)) ∧
    lookupHeader (fileOkResponse p bs) "Connection" = some "close" ∧
    response405.headers = [] ∧
    lookupHeader response400Incomplete "Connection" = none ∧
    lookupHeader response400Malformed "Connection" = none :=
  ⟨rfl, rfl, rfl, rfl, rfl, rfl, rfl⟩

/-- C10: a GET for exactly `/files/` resolves to the serving root: the handler
checks `is_dir` on `public`, reads its directory, and answers 200 with the
listing page whose display path is exactly `/files/` and which contains no
parent-directory link fragment. -/
theorem claim_C10_files_root (fs : FileSystem) (entries : List DirEntry)
    (hd : fs.isDir publicRoot = true)
    (he : fs.dirEntries publicRoot = some entries) :
    handle_get_request fs "/files/" =
      ([FsAccess.isDirCheck publicRoot, FsAccess.readDir publicRoot],
       [serve_static_html (listingHtml publicRoot entries) "HTTP/1.1 200 OK"]) ∧
    relPathOf publicRoot = "/files/" ∧
    parentLinkItem ∉ listingItems publicRoot entries := by
  refine ⟨?_, rfl, ?_⟩
  · have ht : trimStartMatches "/files/" "/files/" = "" := by decide
    have hj : rustJoin publicRoot "" = publicRoot := by decide
    have hc : containsSub "" ".." = false := by decide
    have h1 : ¬("/files/" : String) = "/" := by decide
    have h2 : ¬("/files/" : String) = "/about" := by decide
    have h3 : rustStartsWith "/files/" "/files/" = true := by decide
    simp [handle_get_request, h1, h2, h3, serve_file, ht, serveSegment, hj, hc, hd,
      serve_directory_listing, he]
  · intro hmem
    exact (parentLink_mem_listingItems_iff publicRoot entries).mp hmem rfl

/-- C10 witness: the concrete root filesystem listing a single `index.html`. -/
theorem claim_C10_files_root_witness :
    handle_get_request fsRootListing "/files/" =
      ([FsAccess.isDirCheck publicRoot, FsAccess.readDir publicRoot],
       [serve_static_html
         (listingHtml publicRoot [{ name := "index.html", fileType := some false }])
         "HTTP/1.1 200 OK"]) :=
  (claim_C10_files_root fsRootListing [{ name := "index.html", fileType := some false }]
    (by decide) (by decide)).1
